import Mathlib

/-!
# Verification of the pdf-ocr-overlay page-parallel OCR pipeline

A shallow embedding of the pipeline in `ocr.py`: the pure numeric helpers
(`compute_dpi`, `get_paper_type`), the page-extraction ordering, the per-page
OCR step's DPI/downsampling logic, the worker-pool drain semantics of
`process_page` (a `try`/`finally` that acknowledges the dequeued unit on all
paths but does not catch the exception), and the orchestrator `process` with
its `try`/`finally` workspace cleanup.

Machine arithmetic notes: the Python source is Python 2, so `round` is
round-half-away-from-zero (half-up for nonnegative values), `int(...)`
truncates toward zero (the floor for nonnegative values), and `/` on two ints
is floor division.  Floating-point expressions such as `image_w*72./pdf_w` are
modelled exactly over `ℚ`; all inputs reaching them in the program are small
integers far from representation-dependent tie boundaries.
-/

namespace PdfOcrOverlay

/-- Python 2 `int(round(x))` for nonnegative `x`: round half away from zero,
which for `x ≥ 0` equals `⌊x + 1/2⌋`. -/
def pyRound (x : ℚ) : ℤ := ⌊x + 1/2⌋

/-- Python 2 `int(x)` for nonnegative `x`: truncation toward zero, which for
`x ≥ 0` equals `⌊x⌋`. -/
def pyInt (x : ℚ) : ℤ := ⌊x⌋

/-- `compute_dpi` (ocr.py lines 90–97):
`dpi_w = int(round(image_w*72./pdf_w))`, `dpi_h = int(round(image_h*72./pdf_h))`. -/
def compute_dpi (pdf_w pdf_h image_w image_h : ℕ) : ℤ × ℤ :=
  (pyRound ((image_w : ℚ) * 72 / pdf_w), pyRound ((image_h : ℚ) * 72 / pdf_h))

/-- The `PAPER_SIZES` dict (ocr.py lines 110–124), as an association list in
source order: millimeter pair to paper-standard name. -/
def PAPER_SIZES : List ((ℤ × ℤ) × String) :=
  [((841, 1189), "A0"),
   ((594, 841), "A1"),
   ((420, 594), "A2"),
   ((297, 420), "A3"),
   ((210, 297), "A4"),
   ((148, 210), "A5"),
   ((105, 148), "A6"),
   ((74, 105), "A7"),
   ((52, 74), "A8"),
   ((250, 353), "B4"),
   ((176, 250), "B5"),
   ((125, 176), "B6"),
   ((215, 279), "US Letter")]

/-- The millimeter conversion inside `get_paper_type` (ocr.py line 128):
`w_mm = int(wdots / 7.2 * 2.54)` — note `int`, i.e. truncation, not `round`. -/
def mm_of_dots (dots : ℕ) : ℤ := pyInt ((dots : ℚ) / 7.2 * 2.54)

/-- Spec-variant of the millimeter conversion, following the spec's words
"mm = round(dots / 7.2 * 2.54)" (round to nearest integer); to be compared
against the source conversion `mm_of_dots`. -/
def mm_of_dots_spec (dots : ℕ) : ℤ := pyRound ((dots : ℚ) / 7.2 * 2.54)

/-- `get_paper_type` (ocr.py lines 127–135): convert both point values to
millimeters with the truncating conversion, look the pair up in `PAPER_SIZES`
in (w,h) order, then in swapped (h,w) order with a ", landscape" suffix,
otherwise return the empty string.  The source binds `w_mm`/`h_mm` as locals;
they are inlined here. -/
def get_paper_type (wdots hdots : ℕ) : String :=
  match List.lookup (mm_of_dots wdots, mm_of_dots hdots) PAPER_SIZES with
  | some name => name
  | none =>
    match List.lookup (mm_of_dots hdots, mm_of_dots wdots) PAPER_SIZES with
    | some name => name ++ ", landscape"
    | none => ""

/-- A WorkUnit as placed on the queue (ocr.py line 217): the 1-based page
index paired with the image path. -/
abbrev WorkUnit := ℕ × String

/-- Lexicographic character-sequence comparison: Python 2's byte-string `<=`
used by `list.sort()` on the filename strings (filenames here are ASCII, so
codepoint order and byte order agree). -/
def charsLe : List Char → List Char → Bool
  | [], _ => true
  | _ :: _, [] => false
  | a :: as, b :: bs =>
    if a < b then true
    else if b < a then false
    else charsLe as bs

/-- The comparison `images.sort()` applies to whole paths. -/
def pathLe (a b : String) : Bool := charsLe a.data b.data

/-- `extract_images` (ocr.py lines 81–87): after the pdfimages invocation the
globbed `*.ppm`, `*.pbm` and `*.jpg` matches are collected and the combined
list is sorted lexicographically (`images.sort()`).  The three glob result
lists are the model's input; the subprocess exit status is handled by the
caller's environment (`Env.extractionOk`). -/
def extract_images (ppm pbm jpg : List String) : List String :=
  List.mergeSort (ppm ++ pbm ++ jpg) pathLe

/-- The enqueue loop (ocr.py lines 216–217):
`for idx, image in enumerate(images, start=1): queue.put((idx, image))`. -/
def workUnits (images : List String) : List WorkUnit :=
  images.enumFrom 1

/-- Worker-pool size (ocr.py line 211): `num_workers = min(len(images), jobs)`. -/
def num_workers (images : List String) (jobs : ℕ) : ℕ :=
  min images.length jobs

/-- Default of the `jobs` parameter of `process` (ocr.py line 200). -/
def default_jobs : ℕ := 4

/-- The pure dataflow of the per-page step `ocr_page`
(ocr.py lines 138–159): the computed DPI pair, whether the 50% `mogrify`
downsample ran, and the DPI value passed to the compositor (`hocr2pdf -r`). -/
structure OcrPageResult where
  dpi_w : ℤ
  dpi_h : ℤ
  downsampled : Bool
  dpi_passed : ℤ
deriving DecidableEq

/-- `ocr_page` (ocr.py lines 138–159) restricted to its pure dataflow:
`width`/`height` are the page's point size from the resolution table and
`w`/`h` the image's pixel size.  Lines 151–157: when `dpi_w >= 600` the
image is downsampled by 50% and `dpi_w = dpi_w / 2` (Python 2 integer
division, which on this nonnegative value agrees with `Int` division). -/
def ocr_page (width height w h : ℕ) : OcrPageResult :=
  let dpi := compute_dpi width height w h
  if 600 ≤ dpi.1 then ⟨dpi.1, dpi.2, true, dpi.1 / 2⟩
  else ⟨dpi.1, dpi.2, false, dpi.1⟩

/-- The worker loop `process_page` (ocr.py lines 162–177) over the whole
pool.  Each worker repeatedly dequeues a unit and runs the per-page step
inside `try`/`finally`: the `finally` calls `queue.task_done()` on every
path, but there is no `except` clause, so a raising step terminates that
worker thread right after the acknowledgement.  `runPool fails k units` runs
this under the admissible schedule in which one worker keeps dequeuing until
it either empties the queue or dies, then the next worker proceeds; `fails p`
says whether the per-page step of page `p` raises.  Returns the list of
successfully processed pages and the number of `task_done` acknowledgements. -/
def runPool (fails : ℕ → Bool) : ℕ → List WorkUnit → List ℕ × ℕ
  | _, [] => ([], 0)
  | 0, _ :: _ => ([], 0)
  | k + 1, u :: rest =>
    if fails u.1 then
      let r := runPool fails k rest
      (r.1, r.2 + 1)
    else
      let r := runPool fails (k + 1) rest
      (u.1 :: r.1, r.2 + 1)

/-- `queue.join()` (ocr.py line 218) returns precisely when every enqueued
unit has been acknowledged by `task_done`. -/
def drainReturns (fails : ℕ → Bool) (k : ℕ) (units : List WorkUnit) : Bool :=
  (runPool fails k units).2 == units.length

/-- Failure kinds observable from `process`: `externalTool` is a
`CalledProcessError` escaping `check_call`/`check_output` (the spec's
"ExternalToolError"), `indexError` the `IndexError` from `resolution[0]` on
an empty resolution list.  The source defines no further exception class —
in particular nothing named `PipelineError`. -/
inductive Err
  | externalTool
  | indexError
deriving DecidableEq

/-- How one `process` run ends: normal return, an uncaught exception, or no
return at all (the coordinator blocked forever in `queue.join()`). -/
inductive Outcome
  | ok
  | err (e : Err)
  | hung
deriving DecidableEq

/-- Behaviour of the external collaborators during one `process` run.
`resolution` is the parsed outcome of the identify probe (`Except.error`
when it exits non-zero or its output is unparseable); `extractionOk` the
exit status of pdfimages; `globPpm`/`globPbm`/`globJpg` the raster files it
left in the workspace; `pageFails p` whether one of the external steps of
`ocr_page` for page `p` raises; `mergeOk`/`lsOk` the exit statuses of the gs
concatenation and the final `ls -lh`. -/
structure Env where
  resolution : Except Unit (List (ℕ × ℕ))
  extractionOk : Bool
  globPpm : List String
  globPbm : List String
  globJpg : List String
  pageFails : ℕ → Bool
  mergeOk : Bool
  lsOk : Bool
  jobs : ℕ

/-- Observable result of one `process` run. -/
structure RunResult where
  outcome : Outcome
  workspaceRemoved : Bool
  extractionInvoked : Bool
  enqueued : List WorkUnit
  mergeInvoked : Bool
deriving DecidableEq

/-- The orchestrator `process` (ocr.py lines 200–224).  The whole body after
`mkdtemp` sits in `try`/`finally: rmtree(tmp)`, so `workspaceRemoved` is
true on every path that returns control; the only non-returning path is a
drain-wait that never completes, on which the `finally` never runs.  Line
204 (`w, h = resolution[0]`) precedes extraction and dispatch, so an empty
resolution list raises IndexError with nothing extracted or enqueued.
Inside a worker, `resolution[page-1]` raises IndexError when
`page > len(resolution)`, which behaves like any other step failure. -/
def process (env : Env) : RunResult :=
  match env.resolution with
  | .error _ => ⟨.err .externalTool, true, false, [], false⟩
  | .ok resolution =>
    match resolution with
    | [] => ⟨.err .indexError, true, false, [], false⟩
    | _ :: _ =>
      if env.extractionOk then
        let images := extract_images env.globPpm env.globPbm env.globJpg
        let units := workUnits images
        let k := num_workers images env.jobs
        let stepFails := fun page => env.pageFails page || decide (resolution.length < page)
        if drainReturns stepFails k units then
          if env.mergeOk then
            if env.lsOk then ⟨.ok, true, true, units, true⟩
            else ⟨.err .externalTool, true, true, units, true⟩
          else ⟨.err .externalTool, true, true, units, true⟩
        else ⟨.hung, false, true, units, false⟩
      else ⟨.err .externalTool, true, true, [], false⟩

/-- A fully successful 3-page run: the probe reports three US-Letter pages,
extraction yields three rasters, every per-page step succeeds. -/
def envHappy : Env :=
  ⟨Except.ok [(611, 792), (611, 792), (611, 792)], true,
   ["page-000.ppm", "page-001.ppm", "page-002.ppm"], [], [],
   fun _ => false, true, true, 4⟩

/-- A run whose probe reports one page but whose extraction yields no
images, all subprocesses succeeding. -/
def envZeroImages : Env :=
  ⟨Except.ok [(611, 792)], true, [], [], [], fun _ => false, true, true, 4⟩

/-- A run whose probe reports one page while extraction yields two images
(resolution table shorter than the image list), all subprocesses
succeeding. -/
def envMismatch : Env :=
  ⟨Except.ok [(611, 792)], true, ["m-000.ppm", "m-001.ppm"], [], [],
   fun _ => false, true, true, 4⟩

/-- A run whose probe parses successfully but reports zero pages. -/
def envNoPages : Env :=
  ⟨Except.ok [], true, [], [], [], fun _ => false, true, true, 4⟩

/-- Evaluation rule for `pyInt` at a concrete rational. -/
theorem pyInt_eq {x : ℚ} {n : ℤ} (h1 : (n : ℚ) ≤ x) (h2 : x < n + 1) : pyInt x = n := by
  unfold pyInt
  exact Int.floor_eq_iff.mpr ⟨h1, h2⟩

/-- Evaluation rule for `pyRound` at a concrete rational. -/
theorem pyRound_eq {x : ℚ} {n : ℤ} (h1 : (n : ℚ) ≤ x + 1 / 2) (h2 : x + 1 / 2 < n + 1) :
    pyRound x = n := by
  unfold pyRound
  exact Int.floor_eq_iff.mpr ⟨h1, h2⟩

theorem mm_611 : mm_of_dots 611 = 215 := pyInt_eq (by norm_num) (by norm_num)

theorem mm_792 : mm_of_dots 792 = 279 := pyInt_eq (by norm_num) (by norm_num)

theorem mm_598 : mm_of_dots 598 = 210 := pyInt_eq (by norm_num) (by norm_num)

theorem mm_842 : mm_of_dots 842 = 297 := pyInt_eq (by norm_num) (by norm_num)

theorem mm_5 : mm_of_dots 5 = 1 := pyInt_eq (by norm_num) (by norm_num)

theorem mm_7 : mm_of_dots 7 = 2 := pyInt_eq (by norm_num) (by norm_num)

theorem mm_spec_611 : mm_of_dots_spec 611 = 216 := pyRound_eq (by norm_num) (by norm_num)

theorem mm_spec_792 : mm_of_dots_spec 792 = 279 := pyRound_eq (by norm_num) (by norm_num)

theorem gpt_611_792 : get_paper_type 611 792 = "US Letter" := by
  unfold get_paper_type
  rw [mm_611, mm_792]
  decide

theorem gpt_792_611 : get_paper_type 792 611 = "US Letter, landscape" := by
  unfold get_paper_type
  rw [mm_611, mm_792]
  decide

theorem gpt_598_842 : get_paper_type 598 842 = "A4" := by
  unfold get_paper_type
  rw [mm_598, mm_842]
  decide

theorem dpi_regression : compute_dpi 611 792 2544 3300 = (300, 300) := by
  unfold compute_dpi
  rw [Prod.mk.injEq]
  exact ⟨pyRound_eq (by norm_num) (by norm_num), pyRound_eq (by norm_num) (by norm_num)⟩

/-- `pyRound` lands on a nearest integer: it is within 1/2 of its argument. -/
theorem pyRound_nearest (x : ℚ) : |(pyRound x : ℚ) - x| ≤ 1 / 2 := by
  rw [abs_le]
  constructor
  · have h := Int.lt_floor_add_one (x + 1 / 2)
    simp only [pyRound]
    push_cast at h ⊢
    linarith
  · have h := Int.floor_le (x + 1 / 2)
    simp only [pyRound]
    push_cast at h ⊢
    linarith

/-- C3: for positive dimensions, `compute_dpi` returns
`(round(image_w*72/pdf_w), round(image_h*72/pdf_h))` with each component a
nearest integer to the exact quotient, and in particular
`compute_dpi 611 792 2544 3300 = (300, 300)`. -/
theorem compute_dpi_correct (pdf_w pdf_h image_w image_h : ℕ)
    (h1 : 0 < pdf_w) (h2 : 0 < pdf_h) (h3 : 0 < image_w) (h4 : 0 < image_h) :
    compute_dpi pdf_w pdf_h image_w image_h =
      (pyRound ((image_w : ℚ) * 72 / pdf_w), pyRound ((image_h : ℚ) * 72 / pdf_h)) ∧
    |((compute_dpi pdf_w pdf_h image_w image_h).1 : ℚ) - (image_w : ℚ) * 72 / pdf_w| ≤ 1 / 2 ∧
    |((compute_dpi pdf_w pdf_h image_w image_h).2 : ℚ) - (image_h : ℚ) * 72 / pdf_h| ≤ 1 / 2 ∧
    compute_dpi 611 792 2544 3300 = (300, 300) := by
  refine ⟨rfl, ?_, ?_, dpi_regression⟩
  · exact pyRound_nearest _
  · exact pyRound_nearest _

/-- Closed witness for `compute_dpi_correct` at the regression input. -/
theorem compute_dpi_correct_witness :
    (0 < 611 ∧ 0 < 792 ∧ 0 < 2544 ∧ 0 < 3300) ∧
    (compute_dpi 611 792 2544 3300 =
      (pyRound ((2544 : ℚ) * 72 / 611), pyRound ((3300 : ℚ) * 72 / 792)) ∧
    |((compute_dpi 611 792 2544 3300).1 : ℚ) - (2544 : ℚ) * 72 / 611| ≤ 1 / 2 ∧
    |((compute_dpi 611 792 2544 3300).2 : ℚ) - (3300 : ℚ) * 72 / 792| ≤ 1 / 2 ∧
    compute_dpi 611 792 2544 3300 = (300, 300)) :=
  ⟨⟨by decide, by decide, by decide, by decide⟩,
   compute_dpi_correct 611 792 2544 3300 (by decide) (by decide) (by decide) (by decide)⟩

/-- C4 counterexample: the classifier's conversion truncates (`int`), it does
not round to nearest.  At 611 points the truncating source conversion gives
215 mm while the spec's rounding conversion gives 216 mm, and the classifier's
own result `get_paper_type 611 792 = "US Letter"` requires the 215 value. -/
theorem mm_conversion_not_round :
    mm_of_dots 611 = 215 ∧ mm_of_dots_spec 611 = 216 ∧
    mm_of_dots 611 ≠ mm_of_dots_spec 611 ∧
    get_paper_type 611 792 = "US Letter" ∧
    List.lookup (mm_of_dots_spec 611, mm_of_dots_spec 792) PAPER_SIZES = none := by
  refine ⟨mm_611, mm_spec_611, ?_, gpt_611_792, ?_⟩
  · rw [mm_611, mm_spec_611]
    decide
  · rw [mm_spec_611, mm_spec_792]
    decide

/-- C4 amended: for every point value the classifier converts to millimeters
as `mm = int(dots / 7.2 * 2.54)`, truncation toward zero — the greatest
integer at most the exact value — before the table lookup. -/
theorem mm_conversion_truncates (dots : ℕ) :
    mm_of_dots dots = ⌊(dots : ℚ) / 7.2 * 2.54⌋ ∧
    (mm_of_dots dots : ℚ) ≤ (dots : ℚ) / 7.2 * 2.54 ∧
    (dots : ℚ) / 7.2 * 2.54 < mm_of_dots dots + 1 := by
  refine ⟨rfl, ?_, ?_⟩
  · exact Int.floor_le _
  · exact Int.lt_floor_add_one _

/-- C5: the three concrete classifications from the tests hold, and any pair
whose millimeter pair matches no table entry in either orientation yields the
empty string (the classifier is a total function, it cannot fail). -/
theorem paper_type_results (w h : ℕ)
    (hwh : List.lookup (mm_of_dots w, mm_of_dots h) PAPER_SIZES = none)
    (hhw : List.lookup (mm_of_dots h, mm_of_dots w) PAPER_SIZES = none) :
    get_paper_type w h = "" ∧
    get_paper_type 611 792 = "US Letter" ∧
    get_paper_type 792 611 = "US Letter, landscape" ∧
    get_paper_type 598 842 = "A4" := by
  refine ⟨?_, gpt_611_792, gpt_792_611, gpt_598_842⟩
  unfold get_paper_type
  rw [hwh, hhw]

/-- `charsLe` is transitive. -/
theorem charsLe_trans : ∀ (a b c : List Char), charsLe a b → charsLe b c → charsLe a c
  | [], _, _, _, _ => by simp [charsLe]
  | _ :: _, [], _, h, _ => by simp [charsLe] at h
  | _ :: _, _ :: _, [], _, h => by simp [charsLe] at h
  | a :: as, b :: bs, c :: cs, h1, h2 => by
    simp only [charsLe] at h1 h2 ⊢
    rcases lt_trichotomy a b with hab | hab | hab
    · rcases lt_trichotomy b c with hbc | hbc | hbc
      · simp [lt_trans hab hbc]
      · subst hbc; simp [hab]
      · exact absurd h2 (by simp [lt_asymm hbc, hbc])
    · subst hab
      rcases lt_trichotomy a c with hac | hac | hac
      · simp [hac]
      · subst hac
        simp only [lt_irrefl, if_neg (lt_irrefl a)] at h1 h2 ⊢
        exact charsLe_trans as bs cs h1 h2
      · exact absurd h2 (by simp [lt_asymm hac, hac])
    · exact absurd h1 (by simp [lt_asymm hab, hab])

/-- `charsLe` is total. -/
theorem charsLe_total : ∀ (a b : List Char), charsLe a b || charsLe b a
  | [], _ => by simp [charsLe]
  | _ :: _, [] => by simp [charsLe]
  | a :: as, b :: bs => by
    simp only [charsLe]
    rcases lt_trichotomy a b with h | h | h
    · simp [h]
    · subst h
      simp only [lt_irrefl, if_neg (lt_irrefl a)]
      exact charsLe_total as bs
    · simp [h, lt_asymm h]

theorem pathLe_trans (a b c : String) : pathLe a b → pathLe b c → pathLe a c :=
  charsLe_trans a.data b.data c.data

theorem pathLe_total (a b : String) : pathLe a b || pathLe b a :=
  charsLe_total a.data b.data

/-- Closed witness for `paper_type_results` at the unclassified pair (5, 7). -/
theorem paper_type_results_witness :
    List.lookup (mm_of_dots 5, mm_of_dots 7) PAPER_SIZES = none ∧
    List.lookup (mm_of_dots 7, mm_of_dots 5) PAPER_SIZES = none ∧
    (get_paper_type 5 7 = "" ∧
     get_paper_type 611 792 = "US Letter" ∧
     get_paper_type 792 611 = "US Letter, landscape" ∧
     get_paper_type 598 842 = "A4") :=
  ⟨by rw [mm_5, mm_7]; decide, by rw [mm_5, mm_7]; decide,
   paper_type_results 5 7 (by rw [mm_5, mm_7]; decide) (by rw [mm_5, mm_7]; decide)⟩

/-- C1 counterexample: a pool of one worker and two queued units whose first
page's step raises.  The dequeued unit is acknowledged (the `finally`), but
the exception is not caught — `process_page` has no `except` clause — so it
kills the only worker: the second unit is never processed and drain-wait
never returns. -/
theorem worker_failure_starves_queue :
    runPool (fun p => p == 1) 1 (workUnits ["img-000", "img-001"]) = ([], 1) ∧
    (workUnits ["img-000", "img-001"]).length = 2 ∧
    drainReturns (fun p => p == 1) 1 (workUnits ["img-000", "img-001"]) = false := by
  decide

/-- C1 amended: the `finally` acknowledges every dequeued unit even when the
per-page step raises, but the failure is not caught by the worker — the
exception terminates the worker thread.  Remaining queued units are processed
only by surviving workers: whenever fewer queued units fail than there are
workers, every unit is still dequeued and acknowledged — so drain-wait
returns — and exactly the non-failing pages are processed.  (Under the
sequential worker schedule of `runPool`.) -/
theorem pool_drains_when_failures_below_workers (fails : ℕ → Bool) :
    ∀ (units : List WorkUnit) (k : ℕ),
      units.countP (fun u => fails u.1) < k →
      (runPool fails k units).2 = units.length ∧
      (runPool fails k units).1 = (units.filter (fun u => !fails u.1)).map Prod.fst ∧
      drainReturns fails k units = true := by
  intro units
  induction units with
  | nil =>
    intro k hk
    refine ⟨?_, ?_, ?_⟩ <;> simp [runPool, drainReturns]
  | cons u rest ih =>
    intro k hk
    match k with
    | 0 => exact absurd hk (Nat.not_lt_zero _)
    | k + 1 =>
      by_cases hf : fails u.1
      · have hcount : rest.countP (fun u => fails u.1) < k := by
          rw [List.countP_cons] at hk
          simp [hf] at hk
          omega
        obtain ⟨h1, h2, h3⟩ := ih k hcount
        refine ⟨?_, ?_, ?_⟩
        · simp [runPool, hf, h1]
        · simp [runPool, hf, h2, List.filter_cons, hf]
        · simp [drainReturns, runPool, hf, h1]
      · have hcount : rest.countP (fun u => fails u.1) < k + 1 := by
          rw [List.countP_cons] at hk
          simp [hf] at hk
          omega
        obtain ⟨h1, h2, h3⟩ := ih (k + 1) hcount
        refine ⟨?_, ?_, ?_⟩
        · simp [runPool, hf, h1]
        · simp [runPool, hf, h2, List.filter_cons, hf]
        · simp [drainReturns, runPool, hf, h1]

/-- Closed witness for `pool_drains_when_failures_below_workers`: two
workers, two units, page 1 failing. -/
theorem pool_drains_witness :
    (workUnits ["wit-000", "wit-001"]).countP (fun u => (fun p => p == 1) u.1) < 2 ∧
    ((runPool (fun p => p == 1) 2 (workUnits ["wit-000", "wit-001"])).2 =
        (workUnits ["wit-000", "wit-001"]).length ∧
      (runPool (fun p => p == 1) 2 (workUnits ["wit-000", "wit-001"])).1 =
        ((workUnits ["wit-000", "wit-001"]).filter
          (fun u => !(fun p => p == 1) u.1)).map Prod.fst ∧
      drainReturns (fun p => p == 1) 2 (workUnits ["wit-000", "wit-001"]) = true) :=
  ⟨by decide, pool_drains_when_failures_below_workers (fun p => p == 1)
      (workUnits ["wit-000", "wit-001"]) 2 (by decide)⟩

/-- On every `process` path the workspace is removed unless the run never
returns (a drain-wait that blocks forever). -/
theorem process_removes_or_hangs (env : Env) :
    (process env).workspaceRemoved = true ∨ (process env).outcome = Outcome.hung := by
  unfold process
  dsimp only
  repeat' split
  all_goals first | (left; rfl) | (right; rfl)

/-- C2: whenever `process` returns control to the caller — normally or with
any exception raised at any stage after workspace creation — the
`finally: rmtree(tmp)` has removed the workspace first.  (A run that blocks
forever in `queue.join()` never returns control, so it is outside the
claim.) -/
theorem workspace_always_removed (env : Env)
    (h : (process env).outcome ≠ Outcome.hung) :
    (process env).workspaceRemoved = true := by
  rcases process_removes_or_hangs env with h1 | h1
  · exact h1
  · exact absurd h1 h

unseal List.merge List.mergeSort in
/-- Closed witness for `workspace_always_removed` on a successful 3-page run. -/
theorem workspace_always_removed_witness :
    (process envHappy).outcome ≠ Outcome.hung ∧
    (process envHappy).workspaceRemoved = true :=
  ⟨by decide, workspace_always_removed envHappy (by decide)⟩

/-- C6: for every glob result the orchestrator enqueues exactly one WorkUnit
per extracted image, in the lexicographically sorted extraction order; the
1-based page indices are exactly 1..N in order — no duplicate dispatch, no
dropped page — and the extraction order is indeed sorted. -/
theorem dispatch_exactly_once (ppm pbm jpg : List String) :
    (workUnits (extract_images ppm pbm jpg)).map Prod.snd = extract_images ppm pbm jpg ∧
    (workUnits (extract_images ppm pbm jpg)).map Prod.fst =
      List.range' 1 (extract_images ppm pbm jpg).length ∧
    ((workUnits (extract_images ppm pbm jpg)).map Prod.fst).Nodup ∧
    (workUnits (extract_images ppm pbm jpg)).length = (extract_images ppm pbm jpg).length ∧
    (extract_images ppm pbm jpg).Pairwise (fun a b => pathLe a b = true) := by
  refine ⟨?_, ?_, ?_, ?_, ?_⟩
  · simp [workUnits]
  · simp [workUnits]
  · simp [workUnits, List.nodup_range']
  · simp [workUnits]
  · exact List.sorted_mergeSort (fun a b c => pathLe_trans a b c) pathLe_total _

/-- C7: the per-page step downsamples by 50% iff the computed horizontal DPI
is at least 600, in which case the DPI passed to the compositor is halved
(Python 2 integer halving); otherwise the DPI is passed through unchanged. -/
theorem downsample_iff_high_dpi (width height w h : ℕ) :
    ((ocr_page width height w h).downsampled = true ↔
      600 ≤ (compute_dpi width height w h).1) ∧
    (ocr_page width height w h).dpi_passed =
      (if 600 ≤ (compute_dpi width height w h).1
       then (compute_dpi width height w h).1 / 2
       else (compute_dpi width height w h).1) ∧
    (ocr_page width height w h).dpi_w = (compute_dpi width height w h).1 ∧
    (ocr_page width height w h).dpi_h = (compute_dpi width height w h).2 := by
  unfold ocr_page
  by_cases hc : 600 ≤ (compute_dpi width height w h).1 <;> simp [hc]

unseal List.merge List.mergeSort in
/-- C8 counterexample: the code knows no `PipelineError`.  With one reported
page and zero extracted images the run completes normally — merge is even
invoked on an empty page list; with two extracted images against a one-page
resolution table the run also completes normally, while page 2 dies inside
its worker on the `resolution[page-1]` IndexError (acknowledged like any
failure) and is silently missing from the merge input. -/
theorem structural_failures_not_fatal :
    process envZeroImages = ⟨Outcome.ok, true, true, [], true⟩ ∧
    process envMismatch =
      ⟨Outcome.ok, true, true, workUnits ["m-000.ppm", "m-001.ppm"], true⟩ ∧
    runPool (fun page => envMismatch.pageFails page || decide ((1 : ℕ) < page)) 2
      (workUnits ["m-000.ppm", "m-001.ppm"]) = ([1], 2) := by
  decide

/-- C8 amended: structural issues raise no dedicated error.  The only error
kinds `process` can surface are the external-tool failure
(`CalledProcessError`) and the `IndexError` of `resolution[0]`; in
particular a run whose extraction yields zero images completes normally,
enqueues nothing, and still invokes the merge. -/
theorem zero_images_completes (env : Env) (p : ℕ × ℕ) (rest : List (ℕ × ℕ))
    (hres : env.resolution = Except.ok (p :: rest))
    (hx : env.extractionOk = true)
    (hppm : env.globPpm = []) (hpbm : env.globPbm = []) (hjpg : env.globJpg = [])
    (hm : env.mergeOk = true) (hl : env.lsOk = true) :
    (process env).outcome = Outcome.ok ∧
    (process env).enqueued = [] ∧
    (process env).mergeInvoked = true := by
  unfold process
  rw [hres]
  simp [hx, hppm, hpbm, hjpg, hm, hl, extract_images, workUnits, num_workers,
    drainReturns, runPool]

/-- Closed witness for `zero_images_completes` at `envZeroImages`. -/
theorem zero_images_completes_witness :
    (envZeroImages.resolution = Except.ok ((611, 792) :: []) ∧
      envZeroImages.extractionOk = true ∧
      envZeroImages.globPpm = [] ∧ envZeroImages.globPbm = [] ∧
      envZeroImages.globJpg = [] ∧
      envZeroImages.mergeOk = true ∧ envZeroImages.lsOk = true) ∧
    ((process envZeroImages).outcome = Outcome.ok ∧
      (process envZeroImages).enqueued = [] ∧
      (process envZeroImages).mergeInvoked = true) :=
  ⟨⟨rfl, rfl, rfl, rfl, rfl, rfl, rfl⟩,
   zero_images_completes envZeroImages (611, 792) [] rfl rfl rfl rfl rfl rfl rfl⟩

/-- C9: for positive image count and job limit, the pool size is
`min(len(images), jobs)` and hence at least 1; the default job limit is 4. -/
theorem pool_size_min (images : List String) (jobs : ℕ)
    (h1 : 1 ≤ images.length) (h2 : 1 ≤ jobs) :
    num_workers images jobs = min images.length jobs ∧
    1 ≤ num_workers images jobs ∧
    num_workers images default_jobs = min images.length 4 := by
  refine ⟨rfl, ?_, rfl⟩
  unfold num_workers
  omega

/-- Closed witness for `pool_size_min` with one image and the default limit. -/
theorem pool_size_min_witness :
    1 ≤ (["p-000.ppm"] : List String).length ∧ 1 ≤ 4 ∧
    (num_workers ["p-000.ppm"] 4 = min (["p-000.ppm"] : List String).length 4 ∧
      1 ≤ num_workers ["p-000.ppm"] 4 ∧
      num_workers ["p-000.ppm"] default_jobs = min (["p-000.ppm"] : List String).length 4) :=
  ⟨by decide, by decide, pool_size_min ["p-000.ppm"] 4 (by decide) (by decide)⟩

/-- C10: when the probe parses successfully but reports zero pages,
`process` raises IndexError at the `resolution[0]` diagnostic lookup before
any extraction or dispatch, and the workspace is still removed by the
`finally` before the error propagates. -/
theorem zero_page_probe_index_error (env : Env)
    (h : env.resolution = Except.ok []) :
    process env = ⟨Outcome.err Err.indexError, true, false, [], false⟩ := by
  unfold process
  rw [h]

/-- Closed witness for `zero_page_probe_index_error` at `envNoPages`. -/
theorem zero_page_probe_index_error_witness :
    envNoPages.resolution = Except.ok [] ∧
    process envNoPages = ⟨Outcome.err Err.indexError, true, false, [], false⟩ :=
  ⟨rfl, zero_page_probe_index_error envNoPages rfl⟩

end PdfOcrOverlay
